import Mathlib

/-!
# tufwgo_llm: the llama.cpp command-line driver

A shallow embedding of `src/copilot/driver-llama.cpp/tufwgo_llm.cpp`.

The driver is stateful code talking to two collaborators: the inference
backend declared by `llama.h` and the file system.  Both are taken as
parameters (`Backend`, `FileSystem`) that fix how the outside world answers,
and every call the driver makes is appended, in program order, to the list of
effects carried by an explicit `World`.  The effects record what the driver's
own code does; output produced inside the backend library is not part of it.
-/

namespace TufwgoLlm

/-! ## Data model -/

/-- The types `llama.h` declares and the driver only passes around.  The
header belongs to the external library, so they are parameters. -/
structure LlamaTypes where
  /-- The struct `llama_model_params`. -/
  llama_model_params : Type
  /-- The fields of the struct `llama_context_params` other than `n_ctx`. -/
  llama_context_fields : Type
  /-- What a non-null `llama_model *` points to. -/
  llama_model : Type
  /-- What a non-null `llama_context *` points to. -/
  llama_context : Type

/-- The struct `llama_context_params`: the field the driver assigns, and the
rest of the fields. -/
structure llama_context_params (L : LlamaTypes) where
  n_ctx : Nat
  other : L.llama_context_fields

/-- The two standard streams the driver can write to. -/
inductive Stream where
  | stdout
  | stderr
deriving DecidableEq, Repr

/-- One externally visible action: a call into the backend (with its
arguments and, where it returns a handle, the handle returned: `none` is the
null pointer), a read of a file, or a write to a standard stream.  The
alphabet covers the backend entry points for teardown, release and
generation as well, which the driver never calls. -/
inductive Effect (L : LlamaTypes) where
  | backend_init
  | backend_free
  | model_load_from_file (path : String) (params : L.llama_model_params)
      (result : Option L.llama_model)
  | model_free (model : L.llama_model)
  | init_from_model (model : L.llama_model) (params : llama_context_params L)
      (result : Option L.llama_context)
  | context_free (ctx : L.llama_context)
  | tokenize (text : String)
  | decode (ctx : L.llama_context)
  | get_logits (ctx : L.llama_context)
  | file_read (path : String) (opened : Option String)
  | write (stream : Stream) (text : String)

/-- How the backend answers the driver's calls.  A load or a context creation
answers `none` for the null pointer.  The two `*_default_params` functions
only return a struct of constants, so they are values here and leave no
effect. -/
structure Backend (L : LlamaTypes) where
  llama_model_default_params : L.llama_model_params
  llama_context_default_params : llama_context_params L
  llama_model_load_from_file : String → L.llama_model_params → Option L.llama_model
  llama_init_from_model : L.llama_model → llama_context_params L → Option L.llama_context

/-- How the file system answers: the contents of the file at a path when it
can be opened for reading, `none` when it cannot. -/
structure FileSystem where
  open_read : String → Option String

/-- The state threaded through the driver: the effects so far, oldest first. -/
structure World (L : LlamaTypes) where
  effects : List (Effect L)

/-- The world at process start. -/
def World.start (L : LlamaTypes) : World L := ⟨[]⟩

/-- Record one more effect. -/
def World.emit {L : LlamaTypes} (w : World L) (e : Effect L) : World L :=
  ⟨w.effects ++ [e]⟩

/-! ## The streams used by `read_file` -/

/-- A `std::ifstream` after construction from a path: whether the open
succeeded and the characters its buffer still has to deliver. -/
structure ifstream where
  is_open : Bool
  pending : List Char

/-- A `std::stringstream`: the characters written so far and its failbit. -/
structure stringstream where
  buf : List Char
  failbit : Bool

/-- The constructor `std::ifstream f(path)`: a failed open leaves a stream
whose buffer delivers nothing. -/
def ifstream.open (fs : FileSystem) (path : String) : ifstream :=
  match fs.open_read path with
  | some contents => ⟨true, contents.data⟩
  | none => ⟨false, []⟩

/-- The copy loop of `operator<<(std::streambuf *)`: characters are taken
from the source one at a time, until it is exhausted, and appended to the
destination. -/
def copy_chars : List Char → List Char → List Char
  | [], dst => dst
  | c :: src, dst => copy_chars src (dst ++ [c])

/-- The statement `ss << f.rdbuf()`: copies everything the file buffer
delivers; when no character was inserted the failbit of `ss` is set (and
nothing is thrown, the exception mask being empty). -/
def stringstream.insert_rdbuf (ss : stringstream) (f : ifstream) : stringstream :=
  ⟨copy_chars f.pending ss.buf, ss.failbit || f.pending.isEmpty⟩

/-- The call `ss.str()`. -/
def stringstream.str (ss : stringstream) : String := String.mk ss.buf

/-! ## The program -/

/-- The function `read_file` of the source. -/
def read_file {L : LlamaTypes} (fs : FileSystem) (path : String) (w : World L) :
    String × World L :=
  let f := ifstream.open fs path
  let ss : stringstream := ⟨[], false⟩
  let ss := ss.insert_rdbuf f
  (ss.str, w.emit (.file_read path (fs.open_read path)))

/-- The statement `std::cerr << text`. -/
def cerr_write {L : LlamaTypes} (text : String) (w : World L) : World L :=
  w.emit (.write .stderr text)

/-- The call `llama_backend_init()`. -/
def llama_backend_init {L : LlamaTypes} (w : World L) : World L :=
  w.emit .backend_init

/-- The call `llama_model_load_from_file(path, params)`. -/
def llama_model_load_from_file {L : LlamaTypes} (B : Backend L) (path : String)
    (params : L.llama_model_params) (w : World L) : Option L.llama_model × World L :=
  let result := B.llama_model_load_from_file path params
  (result, w.emit (.model_load_from_file path params result))

/-- The call `llama_init_from_model(model, params)`. -/
def llama_init_from_model {L : LlamaTypes} (B : Backend L) (model : L.llama_model)
    (params : llama_context_params L) (w : World L) : Option L.llama_context × World L :=
  let result := B.llama_init_from_model model params
  (result, w.emit (.init_from_model model params result))

/-- The element `argv[i]`.  The C runtime hands `main` an `argv` of `argc`
strings; an index past the list reads as the empty string. -/
def arg (argv : List String) (i : Nat) : String := argv.getD i ""

/-- The usage line written when arguments are missing. -/
def usage_text : String := "Usage: tufwgo_llm <model.gguf> <grammar.gbnf> <prompt>\n"

/-- The diagnostic written when the model does not load. -/
def load_failure_text : String := "Failed to load model\n"

/-- The function `main` of the source: the exit code and the world it leaves.
Control that reaches the end of `main` returns 0. -/
def main {L : LlamaTypes} (B : Backend L) (fs : FileSystem) (argc : Int)
    (argv : List String) (w : World L) : Int × World L :=
  if argc < 4 then
    let w := cerr_write usage_text w
    (1, w)
  else
    let model_path := arg argv 1
    let grammar_path := arg argv 2
    let _prompt := arg argv 3
    let w := llama_backend_init w
    let mparams := B.llama_model_default_params
    let (model, w) := llama_model_load_from_file B model_path mparams w
    match model with
    | none =>
      let w := cerr_write load_failure_text w
      (1, w)
    | some model =>
      let cparams := B.llama_context_default_params
      let cparams := { cparams with n_ctx := 2048 }
      let (_ctx, w) := llama_init_from_model B model cparams w
      let (_grammar, w) := read_file fs grammar_path w
      (0, w)

/-- One run of the program from process start: the exit code. -/
def exit_code {L : LlamaTypes} (B : Backend L) (fs : FileSystem) (argc : Int)
    (argv : List String) : Int :=
  (main B fs argc argv (World.start L)).1

/-- One run of the program from process start: its effects, oldest first. -/
def trace {L : LlamaTypes} (B : Backend L) (fs : FileSystem) (argc : Int)
    (argv : List String) : List (Effect L) :=
  (main B fs argc argv (World.start L)).2.effects

/-! ## Observations on a trace -/

/-- The text an effect adds to a stream. -/
def Effect.written {L : LlamaTypes} (s : Stream) : Effect L → String
  | .write s2 text => if s2 = s then text else ""
  | _ => ""

/-- Everything a trace wrote to a stream, in order. -/
def written_to {L : LlamaTypes} (s : Stream) (es : List (Effect L)) : String :=
  es.foldl (fun acc e => acc ++ e.written s) ""

/-- Whether an effect is a write to the given stream. -/
def Effect.is_write {L : LlamaTypes} (s : Stream) : Effect L → Bool
  | .write s2 _ => decide (s2 = s)
  | _ => false

/-- Whether an effect is a call into the backend. -/
def Effect.is_backend_call {L : LlamaTypes} : Effect L → Bool
  | .file_read _ _ => false
  | .write _ _ => false
  | _ => true

/-- Whether an effect is a read of a file. -/
def Effect.is_file_read {L : LlamaTypes} : Effect L → Bool
  | .file_read _ _ => true
  | _ => false

/-- Whether an effect is a context creation. -/
def Effect.is_context_creation {L : LlamaTypes} : Effect L → Bool
  | .init_from_model _ _ _ => true
  | _ => false

/-- Whether an effect is the process-wide backend initialisation. -/
def Effect.is_backend_init {L : LlamaTypes} : Effect L → Bool
  | .backend_init => true
  | _ => false

/-- Whether an effect is the process-wide backend teardown. -/
def Effect.is_backend_free {L : LlamaTypes} : Effect L → Bool
  | .backend_free => true
  | _ => false

/-- Whether an effect releases a backend resource (a model or a context). -/
def Effect.is_release {L : LlamaTypes} : Effect L → Bool
  | .model_free _ => true
  | .context_free _ => true
  | _ => false

/-- Whether an effect is a tokenisation, logits or decode call. -/
def Effect.is_generation_call {L : LlamaTypes} : Effect L → Bool
  | .tokenize _ => true
  | .decode _ => true
  | .get_logits _ => true
  | _ => false

/-- Whether an effect frees the given model. -/
def Effect.frees_model {L : LlamaTypes} [DecidableEq L.llama_model]
    (m : L.llama_model) : Effect L → Bool
  | .model_free m2 => decide (m2 = m)
  | _ => false

/-- Whether an effect frees the given context. -/
def Effect.frees_context {L : LlamaTypes} [DecidableEq L.llama_context]
    (c : L.llama_context) : Effect L → Bool
  | .context_free c2 => decide (c2 = c)
  | _ => false

/-- Every resource a trace allocates is released later in the trace: each
model load that returned a model is followed by a free of that model, each
context creation that returned a context by a free of that context. -/
def all_released {L : LlamaTypes} [DecidableEq L.llama_model]
    [DecidableEq L.llama_context] : List (Effect L) → Bool
  | [] => true
  | .model_load_from_file _ _ (some m) :: rest =>
      rest.any (Effect.frees_model m) && all_released rest
  | .init_from_model _ _ (some c) :: rest =>
      rest.any (Effect.frees_context c) && all_released rest
  | _ :: rest => all_released rest

/-! ## Sample collaborators -/

/-- Handles are numbers; parameter structs carry nothing the driver reads. -/
abbrev sampleTypes : LlamaTypes := ⟨Unit, Unit, Nat, Nat⟩

instance : DecidableEq sampleTypes.llama_model := inferInstanceAs (DecidableEq Nat)

instance : DecidableEq sampleTypes.llama_context := inferInstanceAs (DecidableEq Nat)

/-- A backend that loads `model.gguf` and nothing else, and creates contexts. -/
def sampleBackend : Backend sampleTypes where
  llama_model_default_params := ()
  llama_context_default_params := ⟨512, ()⟩
  llama_model_load_from_file := fun path _ => if path = "model.gguf" then some (7 : Nat) else none
  llama_init_from_model := fun _ _ => some (9 : Nat)

/-- A file system holding one grammar file. -/
def sampleFiles : FileSystem where
  open_read := fun path => if path = "grammar.gbnf" then some "root ::= yes | no" else none

/-- A complete command line. -/
def sampleArgs : List String :=
  ["tufwgo_llm", "model.gguf", "grammar.gbnf", "Is the sky blue?"]

/-- A complete command line naming a model that does not load. -/
def badModelArgs : List String :=
  ["tufwgo_llm", "missing.gguf", "grammar.gbnf", "Is the sky blue?"]

/-! ## The generation session of the design

The source ends after reading the grammar file: it holds no tokenisation, no
decoding loop and no grammar automaton.  The definitions of this section
follow sections 3 and 4.1 of the specification instead. -/

/-- Too few arguments: the exit code and the world left behind. -/
theorem main_few_args {L : LlamaTypes} (B : Backend L) (fs : FileSystem) (argc : Int)
    (argv : List String) (w : World L) (h : argc < 4) :
    main B fs argc argv w = (1, ⟨w.effects ++ [.write .stderr usage_text]⟩) := by
  simp [main, h, cerr_write, World.emit]

/-- The model does not load: the exit code and the world left behind. -/
theorem main_load_failed {L : LlamaTypes} (B : Backend L) (fs : FileSystem) (argc : Int)
    (argv : List String) (w : World L) (h : 4 ≤ argc)
    (hl : B.llama_model_load_from_file (arg argv 1) B.llama_model_default_params = none) :
    main B fs argc argv w =
      (1, ⟨w.effects ++ [.backend_init,
        .model_load_from_file (arg argv 1) B.llama_model_default_params none,
        .write .stderr load_failure_text]⟩) := by
  have h4 : ¬ argc < 4 := by omega
  simp [main, h4, hl, cerr_write, World.emit, llama_backend_init,
    llama_model_load_from_file]

/-- The model loads: the exit code and the world left behind. -/
theorem main_loaded {L : LlamaTypes} (B : Backend L) (fs : FileSystem) (argc : Int)
    (argv : List String) (w : World L) (m : L.llama_model) (h : 4 ≤ argc)
    (hl : B.llama_model_load_from_file (arg argv 1) B.llama_model_default_params = some m) :
    main B fs argc argv w =
      (0, ⟨w.effects ++ [.backend_init,
        .model_load_from_file (arg argv 1) B.llama_model_default_params (some m),
        .init_from_model m { B.llama_context_default_params with n_ctx := 2048 }
          (B.llama_init_from_model m { B.llama_context_default_params with n_ctx := 2048 }),
        .file_read (arg argv 2) (fs.open_read (arg argv 2))]⟩) := by
  have h4 : ¬ argc < 4 := by omega
  simp [main, h4, hl, World.emit, llama_backend_init,
    llama_model_load_from_file, llama_init_from_model, read_file]

/-- The trace of a run with too few arguments. -/
theorem trace_few_args {L : LlamaTypes} (B : Backend L) (fs : FileSystem) (argc : Int)
    (argv : List String) (h : argc < 4) :
    trace B fs argc argv = [.write .stderr usage_text] := by
  simp [trace, main_few_args B fs argc argv _ h, World.start]

/-- The trace of a run whose model does not load. -/
theorem trace_load_failed {L : LlamaTypes} (B : Backend L) (fs : FileSystem) (argc : Int)
    (argv : List String) (h : 4 ≤ argc)
    (hl : B.llama_model_load_from_file (arg argv 1) B.llama_model_default_params = none) :
    trace B fs argc argv = [.backend_init,
        .model_load_from_file (arg argv 1) B.llama_model_default_params none,
        .write .stderr load_failure_text] := by
  simp [trace, main_load_failed B fs argc argv _ h hl, World.start]

/-- The trace of a run whose model loads. -/
theorem trace_loaded {L : LlamaTypes} (B : Backend L) (fs : FileSystem) (argc : Int)
    (argv : List String) (m : L.llama_model) (h : 4 ≤ argc)
    (hl : B.llama_model_load_from_file (arg argv 1) B.llama_model_default_params = some m) :
    trace B fs argc argv = [.backend_init,
        .model_load_from_file (arg argv 1) B.llama_model_default_params (some m),
        .init_from_model m { B.llama_context_default_params with n_ctx := 2048 }
          (B.llama_init_from_model m { B.llama_context_default_params with n_ctx := 2048 }),
        .file_read (arg argv 2) (fs.open_read (arg argv 2))] := by
  simp [trace, main_loaded B fs argc argv _ m h hl, World.start]

/-- What a single write to a stream leaves on that stream. -/
theorem written_to_single {L : LlamaTypes} (s : Stream) (text : String) :
    written_to s [(Effect.write s text : Effect L)] = text := by
  simp [written_to, Effect.written]

/-! ## Claims about the argument check and the model load -/

/-- C1: with fewer than three positional arguments (`argc < 4`) `main` returns
1, the usage line is all that reaches standard error, nothing reaches
standard output, and the run holds no backend call and no file read; with
`argc >= 4` the usage line is never written and the backend initialisation
is reached. -/
theorem main_usage_check {L : LlamaTypes} (B : Backend L) (fs : FileSystem) (argc : Int)
    (argv : List String) :
    (argc < 4 →
      exit_code B fs argc argv = 1 ∧
      written_to .stderr (trace B fs argc argv) =
        "Usage: tufwgo_llm <model.gguf> <grammar.gbnf> <prompt>\n" ∧
      written_to .stdout (trace B fs argc argv) = "" ∧
      (∀ e ∈ trace B fs argc argv, e.is_write .stdout = false) ∧
      (∀ e ∈ trace B fs argc argv, e.is_backend_call = false) ∧
      (∀ e ∈ trace B fs argc argv, e.is_file_read = false)) ∧
    (4 ≤ argc →
      (∀ s text, Effect.write s text ∈ trace B fs argc argv →
        text ≠ "Usage: tufwgo_llm <model.gguf> <grammar.gbnf> <prompt>\n") ∧
      (∃ e ∈ trace B fs argc argv, e.is_backend_init = true)) := by
  constructor
  · intro h
    rw [trace_few_args B fs argc argv h]
    refine ⟨?_, written_to_single _ _, ?_, ?_, ?_, ?_⟩
    · simp [exit_code, main_few_args B fs argc argv _ h]
    · simp [written_to, Effect.written]
    · simp [Effect.is_write]
    · simp [Effect.is_backend_call]
    · simp [Effect.is_file_read]
  · intro h
    cases hl : B.llama_model_load_from_file (arg argv 1) B.llama_model_default_params with
    | none =>
      rw [trace_load_failed B fs argc argv h hl]
      simp [load_failure_text, Effect.is_backend_init]
    | some m =>
      rw [trace_loaded B fs argc argv m h hl]
      simp [Effect.is_backend_init]

/-- C1 at a command line without arguments and at a complete one. -/
theorem main_usage_check_witness :
    ((1 : Int) < 4 ∧ exit_code sampleBackend sampleFiles 1 ["tufwgo_llm"] = 1) ∧
    ((4 : Int) ≤ 4 ∧
      ∃ e ∈ trace sampleBackend sampleFiles 4 sampleArgs, e.is_backend_init = true) :=
  ⟨⟨by decide, ((main_usage_check sampleBackend sampleFiles 1
      ["tufwgo_llm"]).1 (by decide)).1⟩,
    ⟨by decide, ((main_usage_check sampleBackend sampleFiles 4
      sampleArgs).2 (by decide)).2⟩⟩

/-- C2: with `argc >= 4` and a model load of `argv[1]` that returns the null
handle, `main` returns 1 and writes `Failed to load model` to standard error,
and the run creates no context and reads no file. -/
theorem main_model_load_failure {L : LlamaTypes} (B : Backend L) (fs : FileSystem)
    (argc : Int) (argv : List String) (h : 4 ≤ argc)
    (hl : B.llama_model_load_from_file (arg argv 1) B.llama_model_default_params = none) :
    exit_code B fs argc argv = 1 ∧
    written_to .stderr (trace B fs argc argv) = "Failed to load model\n" ∧
    (∀ e ∈ trace B fs argc argv, e.is_context_creation = false) ∧
    (∀ e ∈ trace B fs argc argv, e.is_file_read = false) := by
  rw [trace_load_failed B fs argc argv h hl]
  refine ⟨?_, ?_, ?_, ?_⟩
  · simp [exit_code, main_load_failed B fs argc argv _ h hl]
  · simp [written_to, Effect.written, load_failure_text]
  · simp [Effect.is_context_creation]
  · simp [Effect.is_file_read]

/-- C2 at a command line naming a model the backend does not load. -/
theorem main_model_load_failure_witness :
    (4 : Int) ≤ 4 ∧
    sampleBackend.llama_model_load_from_file (arg badModelArgs 1)
      sampleBackend.llama_model_default_params = none ∧
    exit_code sampleBackend sampleFiles 4 badModelArgs = 1 ∧
    written_to .stderr (trace sampleBackend sampleFiles 4 badModelArgs) =
      "Failed to load model\n" :=
  ⟨by decide, by decide,
    (main_model_load_failure sampleBackend sampleFiles 4 badModelArgs
      (by decide) (by decide)).1,
    (main_model_load_failure sampleBackend sampleFiles 4 badModelArgs
      (by decide) (by decide)).2.1⟩

/-! ## Claims about the successful path -/

/-- C3, refuted as stated: on a run whose three arguments are present and
whose model loads, no effect of `main` is a write to standard output. -/
theorem main_success_no_stdout_write :
    (4 : Int) ≤ 4 ∧
    sampleBackend.llama_model_load_from_file (arg sampleArgs 1)
      sampleBackend.llama_model_default_params = some 7 ∧
    (trace sampleBackend sampleFiles 4 sampleArgs).any (Effect.is_write .stdout) = false := by
  decide

/-- C3, amended: with three positional arguments and a model that loads,
`main` writes nothing to standard output before it returns: the run holds no
write to that stream, so no generated text is emitted. -/
theorem main_success_stdout_empty {L : LlamaTypes} (B : Backend L) (fs : FileSystem)
    (argc : Int) (argv : List String) (m : L.llama_model) (h : 4 ≤ argc)
    (hl : B.llama_model_load_from_file (arg argv 1) B.llama_model_default_params = some m) :
    (∀ e ∈ trace B fs argc argv, e.is_write .stdout = false) ∧
    written_to .stdout (trace B fs argc argv) = "" := by
  rw [trace_loaded B fs argc argv m h hl]
  constructor
  · simp [Effect.is_write]
  · simp [written_to, Effect.written]

/-- C3 amended, at the complete sample command line. -/
theorem main_success_stdout_empty_witness :
    (4 : Int) ≤ 4 ∧
    sampleBackend.llama_model_load_from_file (arg sampleArgs 1)
      sampleBackend.llama_model_default_params = some 7 ∧
    written_to .stdout (trace sampleBackend sampleFiles 4 sampleArgs) = "" :=
  ⟨by decide, by decide,
    (main_success_stdout_empty sampleBackend sampleFiles 4 sampleArgs 7
      (by decide) (by decide)).2⟩

/-- C4, refuted as stated: the run below loads a model and creates a context,
and neither is released anywhere in its trace. -/
theorem main_success_leaks :
    trace sampleBackend sampleFiles 4 sampleArgs =
      [.backend_init,
       .model_load_from_file "model.gguf" () (some 7),
       .init_from_model 7 ⟨2048, ()⟩ (some 9),
       .file_read "grammar.gbnf" (some "root ::= yes | no")] ∧
    all_released (trace sampleBackend sampleFiles 4 sampleArgs) = false := by
  constructor
  · rfl
  · decide

/-- C4, amended: no run of `main` releases a backend resource (its trace holds
no model free and no context free); hence every resource of a trace is
released exactly on the runs that allocate none, those with `argc < 4` and
those whose model load returns the null handle. -/
theorem main_never_releases {L : LlamaTypes} [DecidableEq L.llama_model]
    [DecidableEq L.llama_context] (B : Backend L) (fs : FileSystem)
    (argc : Int) (argv : List String) :
    (∀ e ∈ trace B fs argc argv, e.is_release = false) ∧
    (all_released (trace B fs argc argv) = true ↔
      (argc < 4 ∨
        B.llama_model_load_from_file (arg argv 1) B.llama_model_default_params = none)) := by
  by_cases h : argc < 4
  · rw [trace_few_args B fs argc argv h]
    simp [Effect.is_release, all_released, h]
  · have h4 : 4 ≤ argc := by omega
    cases hl : B.llama_model_load_from_file (arg argv 1) B.llama_model_default_params with
    | none =>
      rw [trace_load_failed B fs argc argv h4 hl]
      simp [Effect.is_release, all_released]
    | some m =>
      rw [trace_loaded B fs argc argv m h4 hl]
      simp [Effect.is_release, all_released, Effect.frees_model, h]

/-- C5, refuted as stated: neither the run whose model load fails nor the run
whose model loads holds a backend teardown. -/
theorem main_no_teardown :
    (trace sampleBackend sampleFiles 4 badModelArgs).countP Effect.is_backend_free = 0 ∧
    (trace sampleBackend sampleFiles 4 sampleArgs).countP Effect.is_backend_free = 0 := by
  decide

/-- C5, amended: in every run that passes the argument check the backend
initialisation is the first effect and occurs exactly once, and the backend
teardown is not called, on the model-load-failure path and on the successful
path alike. -/
theorem main_init_once_first {L : LlamaTypes} (B : Backend L) (fs : FileSystem)
    (argc : Int) (argv : List String) (h : 4 ≤ argc) :
    (∃ rest, trace B fs argc argv = .backend_init :: rest ∧
      ∀ e ∈ rest, e.is_backend_init = false) ∧
    (trace B fs argc argv).countP Effect.is_backend_init = 1 ∧
    (trace B fs argc argv).countP Effect.is_backend_free = 0 := by
  cases hl : B.llama_model_load_from_file (arg argv 1) B.llama_model_default_params with
  | none =>
    rw [trace_load_failed B fs argc argv h hl]
    simp [Effect.is_backend_init, Effect.is_backend_free, List.countP_cons]
  | some m =>
    rw [trace_loaded B fs argc argv m h hl]
    simp [Effect.is_backend_init, Effect.is_backend_free, List.countP_cons]

/-- C5 amended, at the command line whose model does not load. -/
theorem main_init_once_first_witness :
    (4 : Int) ≤ 4 ∧
    (trace sampleBackend sampleFiles 4 badModelArgs).countP Effect.is_backend_init = 1 ∧
    (trace sampleBackend sampleFiles 4 badModelArgs).countP Effect.is_backend_free = 0 :=
  ⟨by decide, (main_init_once_first sampleBackend sampleFiles 4 badModelArgs (by decide)).2⟩

/-- C7: with `argc >= 4` and a model that loads, the effects of `main` are
exactly, in this order: backend init; model load of `argv[1]` with the default
model parameters; context creation from the loaded model with the default
context parameters changed only in `n_ctx = 2048`; read of the file at
`argv[2]`.  On every path no effect is a tokenisation, logits or decode call. -/
theorem main_effect_sequence {L : LlamaTypes} (B : Backend L) (fs : FileSystem)
    (argc : Int) (argv : List String) :
    (∀ m, 4 ≤ argc →
      B.llama_model_load_from_file (arg argv 1) B.llama_model_default_params = some m →
      ∃ cparams : llama_context_params L,
        cparams.n_ctx = 2048 ∧
        cparams.other = B.llama_context_default_params.other ∧
        trace B fs argc argv =
          [.backend_init,
           .model_load_from_file (arg argv 1) B.llama_model_default_params (some m),
           .init_from_model m cparams (B.llama_init_from_model m cparams),
           .file_read (arg argv 2) (fs.open_read (arg argv 2))]) ∧
    (∀ e ∈ trace B fs argc argv, e.is_generation_call = false) := by
  constructor
  · intro m h hl
    exact ⟨{ B.llama_context_default_params with n_ctx := 2048 }, rfl, rfl,
      trace_loaded B fs argc argv m h hl⟩
  · by_cases h : argc < 4
    · rw [trace_few_args B fs argc argv h]
      simp [Effect.is_generation_call]
    · have h4 : 4 ≤ argc := by omega
      cases hl : B.llama_model_load_from_file (arg argv 1) B.llama_model_default_params with
      | none =>
        rw [trace_load_failed B fs argc argv h4 hl]
        simp [Effect.is_generation_call]
      | some m =>
        rw [trace_loaded B fs argc argv m h4 hl]
        simp [Effect.is_generation_call]

/-- C7 at the complete sample command line. -/
theorem main_effect_sequence_witness :
    (4 : Int) ≤ 4 ∧
    sampleBackend.llama_model_load_from_file (arg sampleArgs 1)
      sampleBackend.llama_model_default_params = some 7 ∧
    ∃ cparams : llama_context_params sampleTypes,
      cparams.n_ctx = 2048 ∧
      cparams.other = sampleBackend.llama_context_default_params.other ∧
      trace sampleBackend sampleFiles 4 sampleArgs =
        [.backend_init,
         .model_load_from_file (arg sampleArgs 1)
           sampleBackend.llama_model_default_params (some 7),
         .init_from_model 7 cparams (sampleBackend.llama_init_from_model 7 cparams),
         .file_read (arg sampleArgs 2) (sampleFiles.open_read (arg sampleArgs 2))] :=
  ⟨by decide, by decide,
    (main_effect_sequence sampleBackend sampleFiles 4 sampleArgs).1 7
      (by decide) (by decide)⟩

/-- C10: two invocations with `argc >= 4` that agree on `argv[1]` and
`argv[2]`, under the same backend and file system, have the same effects in
the same order (backend calls with their arguments, the file read, the writes
to standard output and standard error) and the same exit code, whatever
`argv[3]`, the further arguments and `argc` are. -/
theorem main_ignores_prompt {L : LlamaTypes} (B : Backend L) (fs : FileSystem)
    (argc1 argc2 : Int) (argv1 argv2 : List String) (h1 : 4 ≤ argc1) (h2 : 4 ≤ argc2)
    (e1 : arg argv1 1 = arg argv2 1) (e2 : arg argv1 2 = arg argv2 2) :
    trace B fs argc1 argv1 = trace B fs argc2 argv2 ∧
    written_to .stdout (trace B fs argc1 argv1) =
      written_to .stdout (trace B fs argc2 argv2) ∧
    written_to .stderr (trace B fs argc1 argv1) =
      written_to .stderr (trace B fs argc2 argv2) ∧
    exit_code B fs argc1 argv1 = exit_code B fs argc2 argv2 := by
  have key : ∀ w : World L, main B fs argc1 argv1 w = main B fs argc2 argv2 w := by
    intro w
    cases hl : B.llama_model_load_from_file (arg argv2 1) B.llama_model_default_params with
    | none =>
      rw [main_load_failed B fs argc2 argv2 w h2 hl,
        main_load_failed B fs argc1 argv1 w h1 (by rw [e1]; exact hl), e1]
    | some m =>
      rw [main_loaded B fs argc2 argv2 w m h2 hl,
        main_loaded B fs argc1 argv1 w m h1 (by rw [e1]; exact hl), e1, e2]
  have ht : trace B fs argc1 argv1 = trace B fs argc2 argv2 := by
    simp [trace, key]
  refine ⟨ht, by rw [ht], by rw [ht], ?_⟩
  simp [exit_code, key]

/-- C10 at two command lines that differ in the prompt and in a fifth
argument. -/
theorem main_ignores_prompt_witness :
    ((4 : Int) ≤ 4 ∧ (4 : Int) ≤ 5 ∧
      arg sampleArgs 1 =
        arg ["tufwgo_llm", "model.gguf", "grammar.gbnf", "Allow ssh", "extra"] 1 ∧
      arg sampleArgs 2 =
        arg ["tufwgo_llm", "model.gguf", "grammar.gbnf", "Allow ssh", "extra"] 2 ∧
      arg sampleArgs 3 ≠
        arg ["tufwgo_llm", "model.gguf", "grammar.gbnf", "Allow ssh", "extra"] 3) ∧
    trace sampleBackend sampleFiles 4 sampleArgs =
      trace sampleBackend sampleFiles 5
        ["tufwgo_llm", "model.gguf", "grammar.gbnf", "Allow ssh", "extra"] ∧
    exit_code sampleBackend sampleFiles 4 sampleArgs =
      exit_code sampleBackend sampleFiles 5
        ["tufwgo_llm", "model.gguf", "grammar.gbnf", "Allow ssh", "extra"] :=
  ⟨⟨by decide, by decide, by decide, by decide, by decide⟩,
    (main_ignores_prompt sampleBackend sampleFiles 4 5 sampleArgs
      ["tufwgo_llm", "model.gguf", "grammar.gbnf", "Allow ssh", "extra"]
      (by decide) (by decide) (by decide) (by decide)).1,
    (main_ignores_prompt sampleBackend sampleFiles 4 5 sampleArgs
      ["tufwgo_llm", "model.gguf", "grammar.gbnf", "Allow ssh", "extra"]
      (by decide) (by decide) (by decide) (by decide)).2.2.2⟩

/-! ## The grammar invariant of the generation session -/

end TufwgoLlm
